import Mathlib

/-!
Verification development for the AI study tool single-page application
(`src/index.tsx`).  The React component's state hooks are embedded as one
explicit application-state structure, and every event handler becomes a pure
transition function on that structure.  The two external collaborators — the
generative-AI service and the browser's durable key-value storage — are
embedded as an explicit environment (`GenEnv`) respectively a storage record
carried inside the state, so that the asynchronous `handleGenerate` pipeline
becomes a deterministic function of the state and the environment's responses.
-/

set_option autoImplicit false

namespace StudyTool

/-- The two input kinds selectable in the UI (source: `inputType` hook). -/
inductive InputType
  | text
  | image
deriving DecidableEq, Repr

/-- The two generation modes (source: `generationMode` hook). -/
inductive GenMode
  | flashcards
  | mcqs
deriving DecidableEq, Repr

/-- A flashcard item as parsed from the service response
(schema: required `question` and `answer` strings), plus the optional
`icon` data URI attached by the enrichment step. -/
structure Flashcard where
  question : String
  answer : String
  icon : Option String := none
deriving DecidableEq, Repr

/-- An MCQ item as parsed from the service response (schema: required
`question` string, `options` array of strings, `correctAnswer` string —
the declared response schema does not constrain the length or the content
of `options` further), plus the optional `icon` data URI. -/
structure MCQItem where
  question : String
  options : List String
  correctAnswer : String
  icon : Option String := none
deriving DecidableEq, Repr

/-- The parsed service response: a list of items of the shape requested by
the active generation mode (`parsedResponse` in `handleGenerate`). -/
inductive ParsedItems
  | cards (items : List Flashcard)
  | mcqItems (items : List MCQItem)
deriving DecidableEq, Repr

/-- `parsedResponse.length`. -/
def ParsedItems.length : ParsedItems → Nat
  | .cards l => l.length
  | .mcqItems l => l.length

/-- The question text of each item, in order; these drive the icon prompts. -/
def ParsedItems.questions : ParsedItems → List String
  | .cards l => l.map (fun item => item.question)
  | .mcqItems l => l.map (fun item => item.question)

/-- The data-URI prefix prepended to the generated icon bytes. -/
def dataUriPrefix : String := "data:image/png;base64,"

/-- Attach the generated icons positionally, one per item, exactly as the
final `parsedResponse.map((item, index) => ...)` does. -/
def ParsedItems.attachIcons : ParsedItems → List String → ParsedItems
  | .cards l, icons =>
      .cards (List.zipWith
        (fun item icon => { item with icon := some (dataUriPrefix ++ icon) }) l icons)
  | .mcqItems l, icons =>
      .mcqItems (List.zipWith
        (fun item icon => { item with icon := some (dataUriPrefix ++ icon) }) l icons)

/-- Extract the flashcard payload.  For records built by this application the
payload constructor always matches the record's mode, so the mismatch
default is unreachable there. -/
def ParsedItems.asCards : ParsedItems → List Flashcard
  | .cards l => l
  | .mcqItems _ => []

/-- Extract the MCQ payload (same remark as `ParsedItems.asCards`). -/
def ParsedItems.asMcqs : ParsedItems → List MCQItem
  | .mcqItems l => l
  | .cards _ => []

/-- One entry of the generation history (`newHistoryItem` in
`handleGenerate`).  `theme` is optional because records deserialized from
storage may predate the theme field; records created by `handleGenerate`
always carry one. -/
structure HistoryRecord where
  id : Nat
  timestamp : String
  inputType : InputType
  generationMode : GenMode
  inputContent : Option String
  generatedData : ParsedItems
  theme : Option String
deriving DecidableEq, Repr

/-- The durable key-value storage: the two named entries the application
uses.  The serialized string form is abstracted to the stored value itself,
since no claim concerns the byte-level encoding. -/
structure Storage where
  studyAppHistory : Option (List HistoryRecord)
  studyAppTheme : Option String
deriving DecidableEq, Repr

/-- The component state: one field per `useState` hook, in source order,
plus the durable storage the handlers write through to. -/
structure AppState where
  inputType : InputType
  generationMode : GenMode
  textContent : String
  image : Option String
  imagePreview : Option String
  generateIcons : Bool
  flashcards : List Flashcard
  mcqs : List MCQItem
  isLoading : Bool
  loadingMessage : String
  error : Option String
  currentCard : Nat
  isFlipped : Bool
  currentMcq : Nat
  selectedOption : Option String
  isAnswered : Bool
  score : Nat
  quizFinished : Bool
  history : List HistoryRecord
  isHistoryVisible : Bool
  theme : String
  storage : Storage
deriving DecidableEq, Repr

/-- Storage with neither entry present. -/
def emptyStorage : Storage := { studyAppHistory := none, studyAppTheme := none }

/-- The initial values of every hook (source lines 7–37). -/
def initialAppState : AppState :=
  { inputType := InputType.text
    generationMode := GenMode.flashcards
    textContent := ""
    image := none
    imagePreview := none
    generateIcons := false
    flashcards := []
    mcqs := []
    isLoading := false
    loadingMessage := ""
    error := none
    currentCard := 0
    isFlipped := false
    currentMcq := 0
    selectedOption := none
    isAnswered := false
    score := 0
    quizFinished := false
    history := []
    isHistoryVisible := false
    theme := "default"
    storage := emptyStorage }

/-! ## Simple handlers -/

/-- `resetInput` (source lines 221–228). -/
def resetInput (s : AppState) : AppState :=
  { s with textContent := "", image := none, imagePreview := none,
           flashcards := [], mcqs := [], error := none }

/-- `changeInputType` (source lines 230–233). -/
def changeInputType (t : InputType) (s : AppState) : AppState :=
  resetInput { s with inputType := t }

/-- `changeGenerationMode` (source lines 235–238). -/
def changeGenerationMode (m : GenMode) (s : AppState) : AppState :=
  resetInput { s with generationMode := m }

/-- `handleThemeChange` (source lines 61–64): sets the theme and writes it
through to storage. -/
def handleThemeChange (selectedTheme : String) (s : AppState) : AppState :=
  { s with theme := selectedTheme,
           storage := { s.storage with studyAppTheme := some selectedTheme } }

/-- `handleClearHistory` (source lines 297–300). -/
def handleClearHistory (s : AppState) : AppState :=
  { s with history := [],
           storage := { s.storage with studyAppHistory := none } }

/-- `navigateCard` (source lines 240–251): reset the flip, then move the
index by `direction` only if the result stays inside the card range. -/
def navigateCard (direction : Int) (s : AppState) : AppState :=
  if 0 ≤ (s.currentCard : Int) + direction ∧
     (s.currentCard : Int) + direction < (s.flashcards.length : Int) then
    { s with isFlipped := false, currentCard := ((s.currentCard : Int) + direction).toNat }
  else
    { s with isFlipped := false }

/-- A sequence of `navigateCard` calls, applied left to right. -/
def navigateSeq (ds : List Int) (s : AppState) : AppState :=
  ds.foldl (fun st d => navigateCard d st) s

/-- `handleOptionClick` (source lines 253–260).  The two state updates are
enqueued before the correct-answer comparison, so when the current index has
no item (unreachable from the rendered option buttons) the answered/selected
updates still apply and the score is untouched. -/
def handleOptionClick (option : String) (s : AppState) : AppState :=
  if s.isAnswered = true then s
  else
    let s1 := { s with isAnswered := true, selectedOption := some option }
    match s.mcqs.get? s.currentMcq with
    | some q => if option = q.correctAnswer then { s1 with score := s1.score + 1 } else s1
    | none => s1

/-- `handleNextQuestion` (source lines 262–270). -/
def handleNextQuestion (s : AppState) : AppState :=
  if (s.currentMcq : Int) < (s.mcqs.length : Int) - 1 then
    { s with currentMcq := s.currentMcq + 1, isAnswered := false, selectedOption := none }
  else
    { s with quizFinished := true }

/-- `restartQuiz` (source lines 272–278). -/
def restartQuiz (s : AppState) : AppState :=
  { s with currentMcq := 0, selectedOption := none, isAnswered := false,
           score := 0, quizFinished := false }

/-- The JS expression `item.theme || 'default'`: the stored theme unless it
is absent or the empty string (the falsy string). -/
def themeOrDefault : Option String → String
  | none => "default"
  | some t => if t = "" then "default" else t

/-- `handleViewHistoryItem` (source lines 280–295). -/
def handleViewHistoryItem (item : HistoryRecord) (s : AppState) : AppState :=
  let s1 := { s with error := none,
                     generationMode := item.generationMode,
                     theme := themeOrDefault item.theme }
  let s2 :=
    if item.generationMode = GenMode.flashcards then
      { s1 with flashcards := item.generatedData.asCards, mcqs := [],
                currentCard := 0, isFlipped := false }
    else
      { s1 with mcqs := item.generatedData.asMcqs, flashcards := [],
                currentMcq := 0, selectedOption := none, isAnswered := false,
                score := 0, quizFinished := false }
  { s2 with isHistoryVisible := false }

/-! ## The generation pipeline (`handleGenerate`, source lines 79–206)

The external services and clocks are an explicit environment.  The icon
sub-requests are all issued (one per item) and joined all-or-nothing,
mirroring the `Promise.all` over the mapped requests. -/

/-- The responses the environment supplies to one `handleGenerate` run:
the clock values, whether the image file read succeeds, the text-generation
service's (already parsed) answer for either mode, the image-generation
service's answer per prompt, and whether the durable history write
succeeds. -/
structure GenEnv where
  nowMs : Nat
  nowISO : String
  encodeOk : Bool
  cardResponse : Except Unit (List Flashcard)
  mcqResponse : Except Unit (List MCQItem)
  iconResult : String → Except Unit String
  storageOk : Bool

/-- Which exit `handleGenerate` took: the success path or one of the
distinct failure branches (named after the spec's error kinds; in the code
all thrown failures funnel into one catch that shows the generic message). -/
inductive GenOutcome
  | success
  | emptyInput
  | encodingFailure
  | textServiceFailure
  | emptyResult
  | iconGenerationFailure
  | storageWriteFailure
deriving DecidableEq, Repr

/-- The result of one `handleGenerate` run: the final state plus an
observation of the run's effects (which exit was taken, whether the text
service was invoked, how many icon sub-requests were issued, and whether a
durable history write was attempted). -/
structure GenResult where
  state : AppState
  outcome : GenOutcome
  textServiceCalled : Bool
  iconRequestsMade : Nat
  storageWriteAttempted : Bool
deriving Repr

/-- The generic message set by the catch block (source line 201). -/
def genericErrorMessage : String :=
  "An error occurred while generating. Please check the console for details."

/-- The validation message (source line 81). -/
def emptyInputMessage : String := "Please provide some content to generate."

/-- The zero-items message (source line 197). -/
def emptyResultMessage : String :=
  "Could not generate content. Please try again with a different source."

/-- The icon prompt derived from an item's question (source line 163). -/
def iconPrompt (q : String) : String :=
  "A simple, clean, minimalist vector icon representing \x27" ++ q ++
    "\x27. Flat design on a plain background."

/-- The `finally` block (source lines 202–205). -/
def finallyStep (s : AppState) : AppState := { s with isLoading := false, loadingMessage := "" }

/-- The `catch` block (source lines 199–201), minus the console log. -/
def catchStep (s : AppState) : AppState := { s with error := some genericErrorMessage }

/-- The state updates issued before the `try` block (source lines 85–98):
loading on, previous error and both item lists cleared, both review state
machines reset. -/
def resetForGenerate (s : AppState) : AppState :=
  { s with isLoading := true, loadingMessage := "Generating text content...",
           error := none, flashcards := [], mcqs := [],
           currentCard := 0, isFlipped := false,
           currentMcq := 0, selectedOption := none, isAnswered := false,
           score := 0, quizFinished := false }

/-- The text-generation call of the active mode (source lines 110–154),
returning the parsed array (source line 156). -/
def textServiceResponse (env : GenEnv) : GenMode → Except Unit ParsedItems
  | GenMode.mcqs => env.mcqResponse.map ParsedItems.mcqItems
  | GenMode.flashcards => env.cardResponse.map ParsedItems.cards

/-- The `Promise.all` join of the icon sub-requests: succeeds with every
icon, in order, exactly when every sub-request succeeds. -/
def allIcons (f : String → Except Unit String) : List String → Except Unit (List String)
  | [] => Except.ok []
  | q :: qs =>
    match f q with
    | Except.error _ => Except.error ()
    | Except.ok i =>
      match allIcons f qs with
      | Except.error _ => Except.error ()
      | Except.ok is => Except.ok (i :: is)

/-- A failure exit of the `try` block: the catch and finally blocks applied
to the state accumulated so far. -/
def mkFail (s : AppState) (o : GenOutcome) (tc : Bool) (n : Nat) (sw : Bool) : GenResult :=
  { state := finallyStep (catchStep s), outcome := o,
    textServiceCalled := tc, iconRequestsMade := n, storageWriteAttempted := sw }

/-- The history record built on the success path (source lines 184–192). -/
def mkHistoryRecord (env : GenEnv) (s : AppState) (enriched : ParsedItems) : HistoryRecord :=
  { id := env.nowMs
    timestamp := env.nowISO
    inputType := s.inputType
    generationMode := s.generationMode
    inputContent := if s.inputType = InputType.text then some s.textContent else s.imagePreview
    generatedData := enriched
    theme := some s.theme }

/-- Steps 177–195 of the source: show the items in the list of the active
mode, prepend the new history record, then attempt the durable write; a
failing write throws into the shared catch block after the display and
in-memory history updates have already been applied. -/
def persistStep (env : GenEnv) (s : AppState) (enriched : ParsedItems) (n : Nat) : GenResult :=
  let s2 :=
    match s.generationMode with
    | GenMode.mcqs => { s with mcqs := enriched.asMcqs }
    | GenMode.flashcards => { s with flashcards := enriched.asCards }
  let updatedHistory := mkHistoryRecord env s enriched :: s2.history
  let s3 := { s2 with history := updatedHistory }
  if env.storageOk = true then
    { state := finallyStep
        { s3 with storage := { s3.storage with studyAppHistory := some updatedHistory } },
      outcome := GenOutcome.success,
      textServiceCalled := true, iconRequestsMade := n, storageWriteAttempted := true }
  else
    { state := finallyStep (catchStep s3), outcome := GenOutcome.storageWriteFailure,
      textServiceCalled := true, iconRequestsMade := n, storageWriteAttempted := true }

/-- The body of the `try` block (source lines 100–205), applied to the
already-reset state. -/
def runPipeline (env : GenEnv) (s : AppState) : GenResult :=
  if s.inputType = InputType.image ∧ env.encodeOk = false then
    mkFail s GenOutcome.encodingFailure false 0 false
  else
    match textServiceResponse env s.generationMode with
    | Except.error _ => mkFail s GenOutcome.textServiceFailure true 0 false
    | Except.ok parsed =>
      if 0 < parsed.length then
        if s.generateIcons = true then
          match allIcons (fun q => env.iconResult (iconPrompt q)) parsed.questions with
          | Except.error _ =>
              mkFail s GenOutcome.iconGenerationFailure true parsed.length false
          | Except.ok icons => persistStep env s (parsed.attachIcons icons) parsed.length
        else persistStep env s parsed 0
      else
        { state := finallyStep { s with error := some emptyResultMessage },
          outcome := GenOutcome.emptyResult,
          textServiceCalled := true, iconRequestsMade := 0, storageWriteAttempted := false }

/-- `handleGenerate` (source lines 79–206): validation guard, then the reset
updates, then the pipeline body. -/
def handleGenerate (env : GenEnv) (s : AppState) : GenResult :=
  if (s.inputType = InputType.text ∧ s.textContent = "") ∨
     (s.inputType = InputType.image ∧ s.image = none) then
    { state := { s with error := some emptyInputMessage },
      outcome := GenOutcome.emptyInput,
      textServiceCalled := false, iconRequestsMade := 0, storageWriteAttempted := false }
  else
    runPipeline env (resetForGenerate s)

/-! ## The MCQ review state machine as an event system

The three user events of the MCQ viewer.  `next` can only fire while the
viewer shows an unfinished quiz with the current question answered: the
button carrying `handleNextQuestion` is rendered only under `isAnswered`
(source line 414) inside the viewer, which itself is rendered only for a
non-empty `mcqs` list (source line 532) and an unfinished quiz (source
line 373).  `select` likewise requires the viewer (non-empty list,
unfinished quiz); `restartQuiz` is also invoked from the history panel, so
it is allowed in any state. -/
inductive McqStep : AppState → AppState → Prop
  | select (s : AppState) (opt : String)
      (hfin : s.quizFinished = false) (hne : s.mcqs ≠ []) :
      McqStep s (handleOptionClick opt s)
  | next (s : AppState)
      (hfin : s.quizFinished = false) (hans : s.isAnswered = true) :
      McqStep s (handleNextQuestion s)
  | restart (s : AppState) : McqStep s (restartQuiz s)

/-- Reflexive-transitive closure of `McqStep`. -/
inductive McqReachable (s0 : AppState) : AppState → Prop
  | refl : McqReachable s0 s0
  | step {s t : AppState} : McqReachable s0 s → McqStep s t → McqReachable s0 t

/-- The strengthened inductive invariant of the MCQ machine. -/
def McqInv (s : AppState) : Prop :=
  s.score ≤ s.currentMcq + (if s.isAnswered = true then 1 else 0)
  ∧ (s.quizFinished = true → s.currentMcq + 1 = s.mcqs.length ∧ s.isAnswered = true)
  ∧ (s.mcqs ≠ [] → s.currentMcq < s.mcqs.length)
  ∧ (s.mcqs = [] → s.isAnswered = false)

theorem handleOptionClick_of_answered (opt : String) (s : AppState)
    (h : s.isAnswered = true) : handleOptionClick opt s = s := by
  simp [handleOptionClick, h]

theorem mcqInv_select (s : AppState) (opt : String) (hinv : McqInv s)
    (hne : s.mcqs ≠ []) : McqInv (handleOptionClick opt s) := by
  obtain ⟨h1, h2, h3, h4⟩ := hinv
  by_cases ha : s.isAnswered = true
  · rw [handleOptionClick_of_answered opt s ha]
    exact ⟨h1, h2, h3, h4⟩
  · unfold handleOptionClick
    simp only [ha, if_neg]
    have hsc : s.score ≤ s.currentMcq := by
      simpa [ha] using h1
    cases hq : s.mcqs.get? s.currentMcq with
    | none =>
      refine ⟨?_, ?_, h3, ?_⟩
      · simpa using Nat.le_succ_of_le hsc
      · intro hf; exact ⟨(h2 hf).1, rfl⟩
      · intro hnil; exact absurd hnil hne
    | some q =>
      by_cases hc : opt = q.correctAnswer
      · simp only [hc, if_pos rfl]
        refine ⟨?_, ?_, h3, ?_⟩
        · simpa using Nat.succ_le_succ hsc
        · intro hf; exact ⟨(h2 hf).1, rfl⟩
        · intro hnil; exact absurd hnil hne
      · simp only [if_neg hc]
        refine ⟨?_, ?_, h3, ?_⟩
        · simpa using Nat.le_succ_of_le hsc
        · intro hf; exact ⟨(h2 hf).1, rfl⟩
        · intro hnil; exact absurd hnil hne

theorem mcqInv_next (s : AppState) (hinv : McqInv s)
    (hfin : s.quizFinished = false) (hans : s.isAnswered = true) :
    McqInv (handleNextQuestion s) := by
  obtain ⟨h1, _h2, h3, h4⟩ := hinv
  have hne : s.mcqs ≠ [] := by
    intro hnil
    rw [h4 hnil] at hans
    exact Bool.false_ne_true hans
  have hlt : s.currentMcq < s.mcqs.length := h3 hne
  have hsc : s.score ≤ s.currentMcq + 1 := by simpa [hans] using h1
  unfold handleNextQuestion
  by_cases hcond : (s.currentMcq : Int) < (s.mcqs.length : Int) - 1
  · simp only [if_pos hcond]
    refine ⟨?_, ?_, ?_, ?_⟩
    · simpa using hsc
    · intro hf; simp at hf; rw [hf] at hfin; exact absurd hfin (by simp)
    · intro _; simp only []
      omega
    · intro _; rfl
  · simp only [if_neg hcond]
    refine ⟨?_, ?_, ?_, ?_⟩
    · simpa [hans] using h1
    · intro _
      constructor
      · simp only []
        omega
      · exact hans
    · intro _; simpa using hlt
    · intro hnil; exact absurd hnil hne

theorem mcqInv_restart (s : AppState) : McqInv (restartQuiz s) := by
  refine ⟨by simp [restartQuiz], by simp [restartQuiz], ?_, by simp [restartQuiz]⟩
  intro hne
  simp only [restartQuiz]
  exact List.length_pos.mpr (by simpa [restartQuiz] using hne)

theorem mcqInv_step {s t : AppState} (hinv : McqInv s) (hst : McqStep s t) : McqInv t := by
  cases hst with
  | select opt hfin hne => exact mcqInv_select s opt hinv hne
  | next hfin hans => exact mcqInv_next s hinv hfin hans
  | restart => exact mcqInv_restart s

theorem mcqInv_reachable {s0 s : AppState} (h0 : McqInv s0)
    (hr : McqReachable s0 s) : McqInv s := by
  induction hr with
  | refl => exact h0
  | step _ hst ih => exact mcqInv_step ih hst

/-! ## Concrete example data for witnesses and scenarios -/

/-- A concrete three-question quiz. -/
def exQ1 : MCQItem := { question := "Q1", options := ["a1", "b1", "c1", "d1"], correctAnswer := "a1" }

def exQ2 : MCQItem := { question := "Q2", options := ["a2", "b2", "c2", "d2"], correctAnswer := "b2" }

def exQ3 : MCQItem := { question := "Q3", options := ["a3", "b3", "c3", "d3"], correctAnswer := "c3" }

def exQuiz : List MCQItem := [exQ1, exQ2, exQ3]

/-- The state right after a three-question MCQ generation: quiz loaded,
review machine at its initial state. -/
def exQuizStart : AppState :=
  { initialAppState with generationMode := GenMode.mcqs, mcqs := exQuiz }

/-- A state in the middle of the quiz with the current question answered. -/
def exAnswered : AppState :=
  { exQuizStart with isAnswered := true, selectedOption := some "a1", score := 1 }

/-- A state viewing a concrete two-card flashcard deck. -/
def exCardState : AppState :=
  { initialAppState with
      flashcards := [{ question := "q1", answer := "r1" }, { question := "q2", answer := "r2" }] }

/-- A concrete history record whose stored theme is the empty string. -/
def exRecord : HistoryRecord :=
  { id := 7, timestamp := "2024-01-01T00:00:00.000Z", inputType := InputType.text,
    generationMode := GenMode.mcqs, inputContent := some "some notes",
    generatedData := ParsedItems.mcqItems exQuiz, theme := some "" }

/-! ## Claim C4: the MCQ review invariant -/

/-- C4: every state reachable from the initial MCQ review state (index 0,
nothing selected, not answered, score 0, not finished) through any sequence
of selectOption / next / restart transitions satisfies
`score ≤ currentIndex + 1`, and `finished` implies
`currentIndex = len - 1` and `answered`. -/
theorem c4_mcq_state_machine_invariant (s0 s : AppState)
    (hidx : s0.currentMcq = 0) (hsel : s0.selectedOption = none)
    (hans : s0.isAnswered = false) (hsc : s0.score = 0)
    (hfin : s0.quizFinished = false)
    (hr : McqReachable s0 s) :
    s.score ≤ s.currentMcq + 1 ∧
    (s.quizFinished = true → s.currentMcq = s.mcqs.length - 1 ∧ s.isAnswered = true) := by
  have h0 : McqInv s0 := by
    refine ⟨?_, ?_, ?_, ?_⟩
    · rw [hsc]; exact Nat.zero_le _
    · intro hf; rw [hfin] at hf; exact absurd hf Bool.false_ne_true
    · intro hne; rw [hidx]; exact List.length_pos.mpr hne
    · intro _; exact hans
  obtain ⟨h1, h2, _h3, _h4⟩ := mcqInv_reachable h0 hr
  constructor
  · refine le_trans h1 ?_
    split <;> omega
  · intro hf
    obtain ⟨ha, hb⟩ := h2 hf
    exact ⟨by omega, hb⟩

/-- Witness for C4 at a concrete two-step run: answer question 1, advance. -/
theorem c4_mcq_state_machine_invariant_witness :
    (handleNextQuestion (handleOptionClick "a1" exQuizStart)).score ≤
      (handleNextQuestion (handleOptionClick "a1" exQuizStart)).currentMcq + 1 ∧
    ((handleNextQuestion (handleOptionClick "a1" exQuizStart)).quizFinished = true →
      (handleNextQuestion (handleOptionClick "a1" exQuizStart)).currentMcq =
        (handleNextQuestion (handleOptionClick "a1" exQuizStart)).mcqs.length - 1 ∧
      (handleNextQuestion (handleOptionClick "a1" exQuizStart)).isAnswered = true) :=
  c4_mcq_state_machine_invariant exQuizStart _ rfl rfl rfl rfl rfl
    (McqReachable.step
      (McqReachable.step McqReachable.refl
        (McqStep.select exQuizStart "a1" (by decide) (by decide)))
      (McqStep.next (handleOptionClick "a1" exQuizStart) (by decide) (by decide)))

/-! ## Claim C5: flashcard navigation bounds -/

theorem navigateCard_flashcards (d : Int) (s : AppState) :
    (navigateCard d s).flashcards = s.flashcards := by
  unfold navigateCard; split <;> rfl

theorem navigateCard_currentCard_lt (d : Int) (s : AppState)
    (h : s.currentCard < s.flashcards.length) :
    (navigateCard d s).currentCard < s.flashcards.length := by
  unfold navigateCard
  split
  · next hc => dsimp only; omega
  · exact h

theorem navigateSeq_bound (ds : List Int) (s : AppState)
    (h : s.currentCard < s.flashcards.length) :
    (navigateSeq ds s).currentCard < s.flashcards.length ∧
    (navigateSeq ds s).flashcards = s.flashcards := by
  induction ds generalizing s with
  | nil => exact ⟨h, rfl⟩
  | cons d ds ih =>
    have hstep := navigateCard_currentCard_lt d s h
    have hfc := navigateCard_flashcards d s
    have := ih (navigateCard d s) (by rw [hfc]; exact hstep)
    refine ⟨?_, ?_⟩
    · have := this.1
      rw [hfc] at this
      exact this
    · rw [show navigateSeq (d :: ds) s = navigateSeq ds (navigateCard d s) from rfl,
          this.2, hfc]

/-- C5: for a non-empty deck, any sequence of navigate calls with
direction −1 or +1 keeps the index inside `[0, len − 1]` (the lower bound
holds because the embedded index is a natural number, matching the code
where the guard only ever stores non-negative values); a move that would
exit the range leaves the index unchanged; and every navigate resets the
flip to front-shown. -/
theorem c5_flashcard_navigation_bounds (s : AppState) (ds : List Int)
    (hne : s.flashcards ≠ [])
    (hds : ∀ d ∈ ds, d = -1 ∨ d = 1)
    (hcur : s.currentCard < s.flashcards.length) :
    (navigateSeq ds s).currentCard < s.flashcards.length ∧
    (∀ d : Int,
      ((s.currentCard : Int) + d < 0 ∨
        (s.flashcards.length : Int) ≤ (s.currentCard : Int) + d) →
      (navigateCard d s).currentCard = s.currentCard) ∧
    (∀ d : Int, (navigateCard d s).isFlipped = false) := by
  refine ⟨(navigateSeq_bound ds s hcur).1, ?_, ?_⟩
  · intro d hd
    unfold navigateCard
    split
    · next hc => omega
    · rfl
  · intro d
    unfold navigateCard
    split <;> rfl

/-- Witness for C5: a forward then backward move on the two-card deck. -/
theorem c5_flashcard_navigation_bounds_witness :
    (navigateSeq [1, -1] exCardState).currentCard < exCardState.flashcards.length ∧
    (∀ d : Int,
      ((exCardState.currentCard : Int) + d < 0 ∨
        (exCardState.flashcards.length : Int) ≤ (exCardState.currentCard : Int) + d) →
      (navigateCard d exCardState).currentCard = exCardState.currentCard) ∧
    (∀ d : Int, (navigateCard d exCardState).isFlipped = false) :=
  c5_flashcard_navigation_bounds exCardState [1, -1] (by decide) (by decide) (by decide)

/-! ## Claim C6: selectOption is idempotent once answered -/

/-- C6: once `answered` is true, `handleOptionClick` returns the state
unchanged, for every option argument — so repeated calls leave `selected`,
`score` and every other field as they are. -/
theorem c6_selectOption_idempotent_once_answered (s : AppState) (opt : String)
    (h : s.isAnswered = true) : handleOptionClick opt s = s :=
  handleOptionClick_of_answered opt s h

/-- Witness for C6 at a concrete answered state. -/
theorem c6_selectOption_idempotent_once_answered_witness :
    handleOptionClick "b1" exAnswered = exAnswered :=
  c6_selectOption_idempotent_once_answered exAnswered "b1" rfl

/-! ## Claim C7: the three-question scenario -/

/-- C7: on the concrete three-question quiz, answering Q1 correctly, Q2
incorrectly and Q3 correctly, each followed by next, yields score 2 and the
finished state after the third next. -/
theorem c7_three_question_scenario :
    (handleNextQuestion (handleOptionClick "c3"
      (handleNextQuestion (handleOptionClick "a2"
        (handleNextQuestion (handleOptionClick "a1" exQuizStart)))))).score = 2 ∧
    (handleNextQuestion (handleOptionClick "c3"
      (handleNextQuestion (handleOptionClick "a2"
        (handleNextQuestion (handleOptionClick "a1" exQuizStart)))))).quizFinished = true := by
  decide

/-! ## Claim C9: restoring a history record -/

/-- C9: selecting a history record restores the stored theme, falling back
to "default" when the theme field is missing or empty; the review machine
of the record's mode is reset to its initial state and the other mode's
item list is cleared. -/
theorem c9_history_restore (item : HistoryRecord) (s : AppState) :
    ((item.theme = none ∨ item.theme = some "") →
      (handleViewHistoryItem item s).theme = "default") ∧
    (∀ t : String, item.theme = some t → t ≠ "" →
      (handleViewHistoryItem item s).theme = t) ∧
    (item.generationMode = GenMode.flashcards →
      (handleViewHistoryItem item s).currentCard = 0 ∧
      (handleViewHistoryItem item s).isFlipped = false ∧
      (handleViewHistoryItem item s).mcqs = []) ∧
    (item.generationMode = GenMode.mcqs →
      (handleViewHistoryItem item s).currentMcq = 0 ∧
      (handleViewHistoryItem item s).selectedOption = none ∧
      (handleViewHistoryItem item s).isAnswered = false ∧
      (handleViewHistoryItem item s).score = 0 ∧
      (handleViewHistoryItem item s).quizFinished = false ∧
      (handleViewHistoryItem item s).flashcards = []) := by
  have htheme : (handleViewHistoryItem item s).theme = themeOrDefault item.theme := by
    unfold handleViewHistoryItem
    split <;> rfl
  refine ⟨?_, ?_, ?_, ?_⟩
  · intro h
    rw [htheme]
    rcases h with h | h <;> rw [h] <;> simp [themeOrDefault]
  · intro t ht hne
    rw [htheme, ht]
    simp [themeOrDefault, hne]
  · intro hm
    simp [handleViewHistoryItem, hm]
  · intro hm
    simp [handleViewHistoryItem, hm]

/-- Witness for C9: the concrete record stores an empty theme, so the
restored theme is "default". -/
theorem c9_history_restore_witness :
    (handleViewHistoryItem exRecord initialAppState).theme = "default" ∧
    (handleViewHistoryItem exRecord initialAppState).currentMcq = 0 ∧
    (handleViewHistoryItem exRecord initialAppState).flashcards = [] :=
  ⟨(c9_history_restore exRecord initialAppState).1 (Or.inr rfl),
   ((c9_history_restore exRecord initialAppState).2.2.2 rfl).1,
   ((c9_history_restore exRecord initialAppState).2.2.2 rfl).2.2.2.2.2⟩

/-! ## Claim C10: switching input type or mode -/

/-- C10: both switch handlers clear the text content, the selected image
and its preview, both item lists and the error message, while leaving the
history, the theme and the durable storage entries untouched. -/
theorem c10_switch_clears_input_keeps_history (s : AppState) (t : InputType) (m : GenMode) :
    ((changeInputType t s).textContent = "" ∧ (changeInputType t s).image = none ∧
     (changeInputType t s).imagePreview = none ∧ (changeInputType t s).flashcards = [] ∧
     (changeInputType t s).mcqs = [] ∧ (changeInputType t s).error = none ∧
     (changeInputType t s).history = s.history ∧ (changeInputType t s).theme = s.theme ∧
     (changeInputType t s).storage = s.storage) ∧
    ((changeGenerationMode m s).textContent = "" ∧ (changeGenerationMode m s).image = none ∧
     (changeGenerationMode m s).imagePreview = none ∧
     (changeGenerationMode m s).flashcards = [] ∧
     (changeGenerationMode m s).mcqs = [] ∧ (changeGenerationMode m s).error = none ∧
     (changeGenerationMode m s).history = s.history ∧
     (changeGenerationMode m s).theme = s.theme ∧
     (changeGenerationMode m s).storage = s.storage) :=
  ⟨⟨rfl, rfl, rfl, rfl, rfl, rfl, rfl, rfl, rfl⟩,
   ⟨rfl, rfl, rfl, rfl, rfl, rfl, rfl, rfl, rfl⟩⟩

/-! ## Pipeline helper lemmas -/

theorem allIcons_error_of_mem (f : String → Except Unit String) (l : List String)
    (a : String) (ha : a ∈ l) (hf : f a = Except.error ()) :
    allIcons f l = Except.error () := by
  induction l with
  | nil => cases ha
  | cons b t ih =>
    rcases List.mem_cons.mp ha with hab | hat
    · subst hab
      simp only [allIcons, hf]
    · simp only [allIcons]
      cases hfb : f b with
      | error e => rfl
      | ok i => rw [ih hat]

theorem allIcons_ok_length (f : String → Except Unit String) (l : List String)
    (out : List String) (h : allIcons f l = Except.ok out) : out.length = l.length := by
  induction l generalizing out with
  | nil =>
    simp only [allIcons] at h
    injection h with h
    subst h
    rfl
  | cons b t ih =>
    simp only [allIcons] at h
    cases hfb : f b with
    | error e => rw [hfb] at h; cases h
    | ok i =>
      rw [hfb] at h
      cases hat : allIcons f t with
      | error e => rw [hat] at h; cases h
      | ok is =>
        rw [hat] at h
        injection h with h
        subst h
        simp [ih is hat]

theorem ParsedItems.questions_length (p : ParsedItems) : p.questions.length = p.length := by
  cases p <;> simp [ParsedItems.questions, ParsedItems.length]

/-- The identity of an MCQ item apart from its icon. -/
def mcqCore (m : MCQItem) : String × List String × String :=
  (m.question, m.options, m.correctAnswer)

theorem map_mcqCore_zipWith_icon (l : List MCQItem) (icons : List String)
    (h : l.length ≤ icons.length) :
    (List.zipWith
      (fun item icon => { item with icon := some (dataUriPrefix ++ icon) }) l icons).map mcqCore
      = l.map mcqCore := by
  induction l generalizing icons with
  | nil => simp
  | cons m t ih =>
    cases icons with
    | nil => simp at h
    | cons i it =>
      simp only [List.zipWith_cons_cons, List.map_cons]
      rw [ih it (by simpa using h)]
      simp [mcqCore]

theorem persistStep_outcome (env : GenEnv) (u : AppState) (enriched : ParsedItems) (n : Nat) :
    (persistStep env u enriched n).outcome =
      if env.storageOk = true then GenOutcome.success else GenOutcome.storageWriteFailure := by
  simp only [persistStep]
  split <;> rfl

theorem persistStep_state_mcqs (env : GenEnv) (u : AppState) (enriched : ParsedItems) (n : Nat)
    (hmode : u.generationMode = GenMode.mcqs) :
    (persistStep env u enriched n).state.mcqs = enriched.asMcqs := by
  simp only [persistStep, hmode]
  split <;> rfl

theorem persistStep_state_flashcards (env : GenEnv) (u : AppState) (enriched : ParsedItems)
    (n : Nat) (hmode : u.generationMode = GenMode.flashcards) :
    (persistStep env u enriched n).state.flashcards = enriched.asCards := by
  simp only [persistStep, hmode]
  split <;> rfl

theorem persistStep_state_history (env : GenEnv) (u : AppState) (enriched : ParsedItems)
    (n : Nat) :
    (persistStep env u enriched n).state.history =
      mkHistoryRecord env u enriched :: u.history := by
  cases hm : u.generationMode <;> simp only [persistStep, hm] <;> split <;> rfl

theorem persistStep_state_storage_fail (env : GenEnv) (u : AppState) (enriched : ParsedItems)
    (n : Nat) (hst : env.storageOk = false) :
    (persistStep env u enriched n).state.storage = u.storage := by
  cases hm : u.generationMode <;> simp [persistStep, hm, hst, finallyStep, catchStep]

theorem persistStep_state_error_fail (env : GenEnv) (u : AppState) (enriched : ParsedItems)
    (n : Nat) (hst : env.storageOk = false) :
    (persistStep env u enriched n).state.error = some genericErrorMessage := by
  cases hm : u.generationMode <;> simp [persistStep, hm, hst, finallyStep, catchStep]

theorem runPipeline_outcome_ne_emptyInput (env : GenEnv) (u : AppState) :
    (runPipeline env u).outcome ≠ GenOutcome.emptyInput := by
  unfold runPipeline
  split
  · simp [mkFail]
  · split
    · simp [mkFail]
    · split
      · split
        · split
          · simp [mkFail]
          · rw [persistStep_outcome]
            split <;> simp
        · rw [persistStep_outcome]
          split <;> simp
      · simp

/-- `handleGenerate` reduced on a passing validation. -/
theorem handleGenerate_eq_runPipeline (env : GenEnv) (s : AppState)
    (hval : ¬ ((s.inputType = InputType.text ∧ s.textContent = "") ∨
               (s.inputType = InputType.image ∧ s.image = none))) :
    handleGenerate env s = runPipeline env (resetForGenerate s) := by
  unfold handleGenerate
  rw [if_neg hval]

/-- `runPipeline` reduced to the no-icons persist step. -/
theorem runPipeline_eq_persist_no_icons (env : GenEnv) (u : AppState) (parsed : ParsedItems)
    (henc : env.encodeOk = true)
    (hresp : textServiceResponse env u.generationMode = Except.ok parsed)
    (hlen : 0 < parsed.length)
    (hicons : u.generateIcons = false) :
    runPipeline env u = persistStep env u parsed 0 := by
  unfold runPipeline
  rw [if_neg (by simp [henc]), hresp]
  dsimp only
  rw [if_pos hlen, if_neg (by simp [hicons])]

/-- `runPipeline` reduced to the icon-enriched persist step. -/
theorem runPipeline_eq_persist_icons (env : GenEnv) (u : AppState) (parsed : ParsedItems)
    (icons : List String)
    (henc : env.encodeOk = true)
    (hresp : textServiceResponse env u.generationMode = Except.ok parsed)
    (hlen : 0 < parsed.length)
    (hicons : u.generateIcons = true)
    (hall : allIcons (fun p => env.iconResult (iconPrompt p)) parsed.questions =
      Except.ok icons) :
    runPipeline env u = persistStep env u (parsed.attachIcons icons) parsed.length := by
  unfold runPipeline
  rw [if_neg (by simp [henc]), hresp]
  dsimp only
  rw [if_pos hlen, if_pos hicons, hall]

/-- `runPipeline` reduced to the icon-failure exit. -/
theorem runPipeline_eq_icon_failure (env : GenEnv) (u : AppState) (parsed : ParsedItems)
    (henc : env.encodeOk = true)
    (hresp : textServiceResponse env u.generationMode = Except.ok parsed)
    (hlen : 0 < parsed.length)
    (hicons : u.generateIcons = true)
    (hall : allIcons (fun p => env.iconResult (iconPrompt p)) parsed.questions =
      Except.error ()) :
    runPipeline env u = mkFail u GenOutcome.iconGenerationFailure true parsed.length false := by
  unfold runPipeline
  rw [if_neg (by simp [henc]), hresp]
  dsimp only
  rw [if_pos hlen, if_pos hicons, hall]

/-! ## Concrete environments for the pipeline claims -/

/-- An MCQ item violating the documented invariant: three options only and
a correct answer that is not among them.  It conforms to the declared
response schema (a string `question`, an array of string `options`, a
string `correctAnswer`), which constrains neither the option count nor
membership. -/
def badMcq : MCQItem := { question := "q", options := ["a", "b", "c"], correctAnswer := "z" }

/-- A well-formed MCQ item. -/
def goodMcq : MCQItem :=
  { question := "Photosynthesis", options := ["a", "b", "c", "d"], correctAnswer := "a" }

/-- An environment where every external call succeeds. -/
def envGood : GenEnv :=
  { nowMs := 42, nowISO := "2024-01-02T00:00:00.000Z", encodeOk := true,
    cardResponse := Except.ok [{ question := "f", answer := "g" }],
    mcqResponse := Except.ok [goodMcq],
    iconResult := fun _ => Except.ok "QUJD",
    storageOk := true }

/-- Same as `envGood` except the text service returns the invariant-violating
item. -/
def envBad : GenEnv := { envGood with mcqResponse := Except.ok [badMcq] }

/-- Same as `envGood` except every icon sub-request rejects. -/
def envIconFail : GenEnv := { envGood with iconResult := fun _ => Except.error () }

/-- Same as `envGood` except the durable history write fails. -/
def envStorageFail : GenEnv := { envGood with storageOk := false }

/-- A state requesting MCQ generation from non-empty text, icons off. -/
def sMcqReq : AppState :=
  { initialAppState with generationMode := GenMode.mcqs, textContent := "notes" }

/-- The same request with icon generation enabled. -/
def sIconReq : AppState := { sMcqReq with generateIcons := true }

/-- A state whose text input is whitespace-only. -/
def sWhitespace : AppState := { initialAppState with textContent := " " }

/-! ## Claim C1 (corrected): MCQ items are stored verbatim, unvalidated -/

theorem runPipeline_success_mcqs_core (env : GenEnv) (u : AppState) (items : List MCQItem)
    (hmode : u.generationMode = GenMode.mcqs)
    (hresp : env.mcqResponse = Except.ok items)
    (hout : (runPipeline env u).outcome = GenOutcome.success) :
    (runPipeline env u).state.mcqs.map mcqCore = items.map mcqCore := by
  have hresp' : textServiceResponse env u.generationMode =
      Except.ok (ParsedItems.mcqItems items) := by
    rw [hmode]
    simp [textServiceResponse, hresp, Except.map]
  by_cases hb1 : u.inputType = InputType.image ∧ env.encodeOk = false
  · rw [show runPipeline env u = mkFail u GenOutcome.encodingFailure false 0 false from by
      unfold runPipeline; rw [if_pos hb1]] at hout
    exact absurd hout (by simp [mkFail])
  · have henc : env.encodeOk = true ∨ u.inputType ≠ InputType.image := by
      by_cases h1 : u.inputType = InputType.image
      · left
        by_cases h2 : env.encodeOk = true
        · exact h2
        · exact absurd ⟨h1, by simpa using h2⟩ hb1
      · right; exact h1
    have hbase : runPipeline env u =
        if 0 < (ParsedItems.mcqItems items).length then
          if u.generateIcons = true then
            match allIcons (fun q => env.iconResult (iconPrompt q))
                (ParsedItems.mcqItems items).questions with
            | Except.error _ =>
                mkFail u GenOutcome.iconGenerationFailure true
                  (ParsedItems.mcqItems items).length false
            | Except.ok icons =>
                persistStep env u ((ParsedItems.mcqItems items).attachIcons icons)
                  (ParsedItems.mcqItems items).length
          else persistStep env u (ParsedItems.mcqItems items) 0
        else
          { state := finallyStep { u with error := some emptyResultMessage },
            outcome := GenOutcome.emptyResult,
            textServiceCalled := true, iconRequestsMade := 0,
            storageWriteAttempted := false } := by
      unfold runPipeline
      rw [if_neg hb1, hresp']
    rw [hbase] at hout ⊢
    by_cases hlen : 0 < (ParsedItems.mcqItems items).length
    · rw [if_pos hlen] at hout ⊢
      by_cases hic : u.generateIcons = true
      · rw [if_pos hic] at hout ⊢
        cases hall : allIcons (fun q => env.iconResult (iconPrompt q))
            (ParsedItems.mcqItems items).questions with
        | error e =>
          rw [hall] at hout
          simp [mkFail] at hout
        | ok icons =>
          rw [hall] at hout
          dsimp only at hout ⊢
          have hmcqs := persistStep_state_mcqs env u
            ((ParsedItems.mcqItems items).attachIcons icons)
            (ParsedItems.mcqItems items).length hmode
          rw [hmcqs]
          have hlen2 : icons.length = items.length := by
            have := allIcons_ok_length _ _ icons hall
            simpa [ParsedItems.questions] using this
          show (ParsedItems.mcqItems
              (List.zipWith
                (fun item icon => { item with icon := some (dataUriPrefix ++ icon) })
                items icons)).asMcqs.map mcqCore = items.map mcqCore
          simp only [ParsedItems.asMcqs]
          exact map_mcqCore_zipWith_icon items icons (by omega)
      · rw [if_neg hic] at hout ⊢
        rw [persistStep_state_mcqs env u (ParsedItems.mcqItems items) 0 hmode]
        rfl
    · rw [if_neg hlen] at hout
      exact absurd hout (by simp)

/-- C1 corrected: a successful MCQ generation stores the service's items
verbatim apart from icon attachment, so `correctAnswer ∈ options` with four
distinct options holds for the produced items exactly when the service's
response already satisfied it — the pipeline itself validates nothing. -/
theorem c1_mcq_items_stored_verbatim (env : GenEnv) (s : AppState) (items : List MCQItem)
    (hmode : s.generationMode = GenMode.mcqs)
    (hresp : env.mcqResponse = Except.ok items)
    (hout : (handleGenerate env s).outcome = GenOutcome.success) :
    (handleGenerate env s).state.mcqs.map mcqCore = items.map mcqCore ∧
    ((∀ m ∈ (handleGenerate env s).state.mcqs,
        m.correctAnswer ∈ m.options ∧ m.options.length = 4 ∧ m.options.Nodup) ↔
      (∀ m ∈ items,
        m.correctAnswer ∈ m.options ∧ m.options.length = 4 ∧ m.options.Nodup)) := by
  by_cases hval : (s.inputType = InputType.text ∧ s.textContent = "") ∨
      (s.inputType = InputType.image ∧ s.image = none)
  · unfold handleGenerate at hout
    rw [if_pos hval] at hout
    exact absurd hout (by simp)
  · rw [handleGenerate_eq_runPipeline env s hval] at hout ⊢
    have hmap := runPipeline_success_mcqs_core env (resetForGenerate s) items hmode hresp hout
    refine ⟨hmap, ?_⟩
    have key : ∀ l : List MCQItem,
        (∀ m ∈ l, m.correctAnswer ∈ m.options ∧ m.options.length = 4 ∧ m.options.Nodup) ↔
        (∀ x ∈ l.map mcqCore, x.2.2 ∈ x.2.1 ∧ x.2.1.length = 4 ∧ x.2.1.Nodup) := by
      intro l
      constructor
      · intro h x hx
        obtain ⟨m, hm, rfl⟩ := List.mem_map.mp hx
        exact h m hm
      · intro h m hm
        exact h (mcqCore m) (List.mem_map_of_mem _ hm)
    rw [key, key, hmap]

/-- C1 counterexample: a schema-conforming service response whose single
item has three options and a correct answer outside them passes through
`generate()` successfully and is displayed as-is, refuting the claimed
invariant quantified over every response the service may return. -/
theorem c1_counterexample_no_validation :
    (handleGenerate envBad sMcqReq).outcome = GenOutcome.success ∧
    (handleGenerate envBad sMcqReq).state.mcqs = [badMcq] ∧
    badMcq.correctAnswer ∉ badMcq.options ∧
    badMcq.options.length ≠ 4 := by decide

/-- Witness for C1 at a well-formed concrete response: the displayed items
are, icon aside, exactly the response items. -/
theorem c1_mcq_items_stored_verbatim_witness :
    (handleGenerate envGood sMcqReq).state.mcqs.map mcqCore = [goodMcq].map mcqCore :=
  (c1_mcq_items_stored_verbatim envGood sMcqReq [goodMcq] rfl rfl (by decide)).1

/-! ## Claim C2: icon failure aborts atomically -/

/-- C2: in either generation mode, with icons requested, if any one icon
sub-request rejects then the whole generation fails on the icon-generation
exit: no history record is appended, durable storage is neither written nor
attempted, both displayed item lists stay empty, and the shared catch sets
the generic error. -/
theorem c2_icon_failure_is_atomic (env : GenEnv) (s : AppState)
    (parsed : ParsedItems) (q : String)
    (hval : ¬ ((s.inputType = InputType.text ∧ s.textContent = "") ∨
               (s.inputType = InputType.image ∧ s.image = none)))
    (henc : env.encodeOk = true)
    (hicons : s.generateIcons = true)
    (hresp : textServiceResponse env s.generationMode = Except.ok parsed)
    (hmem : q ∈ parsed.questions)
    (hfail : env.iconResult (iconPrompt q) = Except.error ()) :
    (handleGenerate env s).outcome = GenOutcome.iconGenerationFailure ∧
    (handleGenerate env s).state.history = s.history ∧
    (handleGenerate env s).state.storage = s.storage ∧
    (handleGenerate env s).storageWriteAttempted = false ∧
    (handleGenerate env s).state.mcqs = [] ∧
    (handleGenerate env s).state.flashcards = [] ∧
    (handleGenerate env s).state.error = some genericErrorMessage := by
  have hresp' : textServiceResponse env (resetForGenerate s).generationMode =
      Except.ok parsed := by
    show textServiceResponse env s.generationMode = _
    exact hresp
  have hlen : 0 < parsed.length := by
    have hq := ParsedItems.questions_length parsed
    have := List.length_pos.mpr (List.ne_nil_of_mem hmem)
    omega
  have hall : allIcons (fun p => env.iconResult (iconPrompt p)) parsed.questions =
      Except.error () :=
    allIcons_error_of_mem _ _ q hmem hfail
  have heq : handleGenerate env s =
      mkFail (resetForGenerate s) GenOutcome.iconGenerationFailure true parsed.length false := by
    rw [handleGenerate_eq_runPipeline env s hval]
    exact runPipeline_eq_icon_failure env (resetForGenerate s) parsed henc hresp' hlen hicons hall
  rw [heq]
  exact ⟨rfl, rfl, rfl, rfl, rfl, rfl, rfl⟩

/-- A flashcards-mode request with icon generation enabled. -/
def sCardIconReq : AppState :=
  { initialAppState with textContent := "notes", generateIcons := true }

/-- Witness for C2: the all-rejecting icon environment on a concrete
flashcards-mode request. -/
theorem c2_icon_failure_is_atomic_witness :
    (handleGenerate envIconFail sCardIconReq).outcome = GenOutcome.iconGenerationFailure ∧
    (handleGenerate envIconFail sCardIconReq).state.history = sCardIconReq.history ∧
    (handleGenerate envIconFail sCardIconReq).state.storage = sCardIconReq.storage ∧
    (handleGenerate envIconFail sCardIconReq).storageWriteAttempted = false ∧
    (handleGenerate envIconFail sCardIconReq).state.mcqs = [] ∧
    (handleGenerate envIconFail sCardIconReq).state.flashcards = [] ∧
    (handleGenerate envIconFail sCardIconReq).state.error = some genericErrorMessage :=
  c2_icon_failure_is_atomic envIconFail sCardIconReq
    (ParsedItems.cards [{ question := "f", answer := "g" }]) "f"
    (by decide) rfl rfl rfl (by decide) rfl

/-! ## Claim C3 (corrected): the validation guard -/

/-- C3 corrected: `generate()` takes the empty-input exit exactly when the
text is the empty string (text mode) or no file is selected (image mode) —
whitespace-only text passes the guard.  On that exit the only state change
is the error message, no text-service call is made, no icon sub-request is
issued, and no storage write is attempted. -/
theorem c3_empty_input_validation (env : GenEnv) (s : AppState) :
    ((handleGenerate env s).outcome = GenOutcome.emptyInput ↔
      ((s.inputType = InputType.text ∧ s.textContent = "") ∨
       (s.inputType = InputType.image ∧ s.image = none))) ∧
    (((s.inputType = InputType.text ∧ s.textContent = "") ∨
      (s.inputType = InputType.image ∧ s.image = none)) →
      (handleGenerate env s).state = { s with error := some emptyInputMessage } ∧
      (handleGenerate env s).textServiceCalled = false ∧
      (handleGenerate env s).iconRequestsMade = 0 ∧
      (handleGenerate env s).storageWriteAttempted = false) := by
  by_cases hval : (s.inputType = InputType.text ∧ s.textContent = "") ∨
      (s.inputType = InputType.image ∧ s.image = none)
  · have heq : handleGenerate env s =
        { state := { s with error := some emptyInputMessage },
          outcome := GenOutcome.emptyInput,
          textServiceCalled := false, iconRequestsMade := 0,
          storageWriteAttempted := false } := by
      unfold handleGenerate
      rw [if_pos hval]
    rw [heq]
    exact ⟨⟨fun _ => hval, fun _ => rfl⟩, fun _ => ⟨rfl, rfl, rfl, rfl⟩⟩
  · rw [handleGenerate_eq_runPipeline env s hval]
    refine ⟨⟨fun h => absurd h (runPipeline_outcome_ne_emptyInput env (resetForGenerate s)),
            fun h => absurd h hval⟩, fun h => absurd h hval⟩

/-- C3 counterexample: a whitespace-only text input is truthy, so the guard
is not taken and the text service is called — the claim's
"empty or whitespace-only" does not hold for the code. -/
theorem c3_counterexample_whitespace_passes :
    sWhitespace.inputType = InputType.text ∧
    sWhitespace.textContent = " " ∧
    (handleGenerate envGood sWhitespace).outcome ≠ GenOutcome.emptyInput ∧
    (handleGenerate envGood sWhitespace).textServiceCalled = true := by decide

/-- Witness for C3: the truly empty text input takes the empty-input exit
with no service call. -/
theorem c3_empty_input_validation_witness :
    (handleGenerate envGood initialAppState).outcome = GenOutcome.emptyInput ∧
    (handleGenerate envGood initialAppState).textServiceCalled = false ∧
    (handleGenerate envGood initialAppState).state =
      { initialAppState with error := some emptyInputMessage } :=
  ⟨(c3_empty_input_validation envGood initialAppState).1.mpr (Or.inl ⟨rfl, rfl⟩),
   ((c3_empty_input_validation envGood initialAppState).2 (Or.inl ⟨rfl, rfl⟩)).2.1,
   ((c3_empty_input_validation envGood initialAppState).2 (Or.inl ⟨rfl, rfl⟩)).1⟩

/-! ## Claim C8 (corrected): storage write failure after success -/

/-- C8 corrected: when the durable history write fails after a successful
generation — in either mode, with or without icon enrichment — the
generated items remain displayed, the in-memory history retains the new
record, and the durable storage entries are unchanged — but the failure
shares the pipeline's catch handler, so the generic user-facing error
message is also set (in addition to the console log). -/
theorem c8_storage_write_failure_keeps_results (env : GenEnv) (s : AppState)
    (parsed enriched : ParsedItems)
    (hval : ¬ ((s.inputType = InputType.text ∧ s.textContent = "") ∨
               (s.inputType = InputType.image ∧ s.image = none)))
    (henc : env.encodeOk = true)
    (hresp : textServiceResponse env s.generationMode = Except.ok parsed)
    (hlen : 0 < parsed.length)
    (henr : (s.generateIcons = false ∧ enriched = parsed) ∨
            (s.generateIcons = true ∧ ∃ icons,
              allIcons (fun p => env.iconResult (iconPrompt p)) parsed.questions =
                Except.ok icons ∧ enriched = parsed.attachIcons icons))
    (hst : env.storageOk = false) :
    (handleGenerate env s).outcome = GenOutcome.storageWriteFailure ∧
    (s.generationMode = GenMode.mcqs → (handleGenerate env s).state.mcqs = enriched.asMcqs) ∧
    (s.generationMode = GenMode.flashcards →
      (handleGenerate env s).state.flashcards = enriched.asCards) ∧
    (handleGenerate env s).state.history = mkHistoryRecord env s enriched :: s.history ∧
    (handleGenerate env s).state.storage = s.storage ∧
    (handleGenerate env s).storageWriteAttempted = true ∧
    (handleGenerate env s).state.error = some genericErrorMessage := by
  have heq : ∃ n, handleGenerate env s = persistStep env (resetForGenerate s) enriched n := by
    rcases henr with ⟨hic, henr⟩ | ⟨hic, icons, hall, henr⟩
    · refine ⟨0, ?_⟩
      rw [henr, handleGenerate_eq_runPipeline env s hval]
      exact runPipeline_eq_persist_no_icons env (resetForGenerate s) parsed henc hresp hlen hic
    · refine ⟨parsed.length, ?_⟩
      rw [henr, handleGenerate_eq_runPipeline env s hval]
      exact runPipeline_eq_persist_icons env (resetForGenerate s) parsed icons
        henc hresp hlen hic hall
  obtain ⟨n, heq⟩ := heq
  rw [heq]
  refine ⟨?_, ?_, ?_, ?_, ?_, ?_, ?_⟩
  · rw [persistStep_outcome]
    rw [hst]
    rfl
  · intro hm
    exact persistStep_state_mcqs env (resetForGenerate s) enriched n hm
  · intro hm
    exact persistStep_state_flashcards env (resetForGenerate s) enriched n hm
  · rw [persistStep_state_history]
    rfl
  · exact persistStep_state_storage_fail env (resetForGenerate s) enriched n hst
  · simp only [persistStep]
    split <;> rfl
  · exact persistStep_state_error_fail env (resetForGenerate s) enriched n hst

/-- C8 counterexample: on a concrete run where only the durable write
fails, the user-facing generic error message is set — refuting "no
user-facing pipeline error beyond logging is raised" — while the items and
the in-memory record are indeed retained. -/
theorem c8_counterexample_error_surfaced :
    (handleGenerate envStorageFail sMcqReq).outcome = GenOutcome.storageWriteFailure ∧
    (handleGenerate envStorageFail sMcqReq).state.error = some genericErrorMessage ∧
    (handleGenerate envStorageFail sMcqReq).state.error ≠ none ∧
    (handleGenerate envStorageFail sMcqReq).state.mcqs = [goodMcq] ∧
    (handleGenerate envStorageFail sMcqReq).state.history ≠ [] := by decide

/-- Witness for C8 at the concrete failing-write environment, with icon
enrichment enabled. -/
theorem c8_storage_write_failure_keeps_results_witness :
    (handleGenerate envStorageFail sIconReq).outcome = GenOutcome.storageWriteFailure ∧
    (handleGenerate envStorageFail sIconReq).state.mcqs =
      ((ParsedItems.mcqItems [goodMcq]).attachIcons ["QUJD"]).asMcqs ∧
    (handleGenerate envStorageFail sIconReq).state.history =
      mkHistoryRecord envStorageFail sIconReq
        ((ParsedItems.mcqItems [goodMcq]).attachIcons ["QUJD"]) :: sIconReq.history ∧
    (handleGenerate envStorageFail sIconReq).state.storage = sIconReq.storage :=
  ⟨(c8_storage_write_failure_keeps_results envStorageFail sIconReq
      (ParsedItems.mcqItems [goodMcq]) ((ParsedItems.mcqItems [goodMcq]).attachIcons ["QUJD"])
      (by decide) rfl rfl (by decide) (Or.inr ⟨rfl, ["QUJD"], rfl, rfl⟩) rfl).1,
   (c8_storage_write_failure_keeps_results envStorageFail sIconReq
      (ParsedItems.mcqItems [goodMcq]) ((ParsedItems.mcqItems [goodMcq]).attachIcons ["QUJD"])
      (by decide) rfl rfl (by decide) (Or.inr ⟨rfl, ["QUJD"], rfl, rfl⟩) rfl).2.1 rfl,
   (c8_storage_write_failure_keeps_results envStorageFail sIconReq
      (ParsedItems.mcqItems [goodMcq]) ((ParsedItems.mcqItems [goodMcq]).attachIcons ["QUJD"])
      (by decide) rfl rfl (by decide) (Or.inr ⟨rfl, ["QUJD"], rfl, rfl⟩) rfl).2.2.2.1,
   (c8_storage_write_failure_keeps_results envStorageFail sIconReq
      (ParsedItems.mcqItems [goodMcq]) ((ParsedItems.mcqItems [goodMcq]).attachIcons ["QUJD"])
      (by decide) rfl rfl (by decide) (Or.inr ⟨rfl, ["QUJD"], rfl, rfl⟩) rfl).2.2.2.2.1⟩

end StudyTool
